import Mathlib

/-!
Shallow embedding of the ADSBtool aircraft-telemetry analysis pipeline
(`src/analysis.py`, class `AircraftMapAnalyzer`), together with theorems
checking the natural-language specification against it.

A CSV row is modelled as a `Row` whose cells are `Option` values: the
scraper (`src/scrapper.py`) always writes the full fixed header, so a
missing value in a record is an *empty cell*, which `pandas.read_csv`
materialises as NaN; `none` models that NaN.  Numeric cells are modelled
as rationals.  Python / pandas semantics that matter here and are encoded
explicitly below:

* Python truthiness of a float cell: `bool(x)` is `x != 0`, and NaN is
  *truthy* (`NaN != 0` holds), while `0.0` is falsy.  The altitude fallback
  `row.get('baro_altitude', 0) or row.get('geo_altitude', 0) or 0`
  (analysis.py lines 73/158) therefore returns NaN whenever
  `baro_altitude` is NaN, and any `>` comparison against NaN is `False`.
* `pd.to_datetime(series)` (line 32) raises on the first unparsable
  timestamp string (default `errors='raise'`); the surrounding
  `try/except` of `load_data` then replaces the whole store by an empty
  frame.  An empty timestamp cell parses to NaT without error.
* `DataFrame.dropna(subset=['latitude','longitude'])` (line 35) drops
  exactly the rows with a NaN coordinate; it performs no range or
  finiteness validation.
* `DataFrame.drop_duplicates(subset, keep='first')` (line 271)
  deduplicates *globally*, keeping the first occurrence of each key.
* `DataFrame.groupby('icao24')` (line 253) iterates group keys in
  ascending sorted order (`sort=True` default) and omits NaN keys.
* `sort_values('timestamp')` (line 38) uses numpy quicksort, whose order
  on tied keys is implementation-defined; the model fixes a stable
  insertion sort instead, and no theorem below depends on the order of
  rows with equal timestamps.
-/

/-- Raw timestamp cell of a CSV row: `missing` is an empty cell (pandas
NaN, parsed by `pd.to_datetime` to NaT), `bad` is a string
`pd.to_datetime` cannot parse (it raises), and `good t` is a parseable
instant modelled as a rational number of seconds. -/
inductive TsRaw where
  | missing : TsRaw
  | bad : TsRaw
  | good : ℚ → TsRaw
deriving DecidableEq

/-- One CSV row as `pandas` sees it after `read_csv` of the scraper's
output: every column exists, and a missing cell is NaN (`none`). -/
structure Row where
  icao24 : Option String
  callsign : Option String
  ts : TsRaw
  latitude : Option ℚ
  longitude : Option ℚ
  baro_altitude : Option ℚ
  geo_altitude : Option ℚ
  velocity : Option ℚ
deriving DecidableEq

/-- Timestamp of a row after `pd.to_datetime`: `none` is NaT.  Meaningful
only for stores in which no cell is `bad` (a `bad` cell aborts the load
before any row carries a parsed timestamp). -/
def Row.tsVal (r : Row) : Option ℚ :=
  match r.ts with
  | .good t => some t
  | _ => none

/-- Python truthiness of a pandas float cell: NaN (`none`) is truthy,
a number is truthy iff it is nonzero. -/
def pyTruthy : Option ℚ → Bool
  | none => true
  | some q => decide (q ≠ 0)

/-- Python `x or y` on two pandas cells: `x` when truthy, else `y`. -/
def pyOr (x y : Option ℚ) : Option ℚ :=
  if pyTruthy x then x else y

/-- Effective altitude of analysis.py lines 73 and 158:
`row.get('baro_altitude', 0) or row.get('geo_altitude', 0) or 0`,
where `none` is NaN. -/
def effective_altitude (r : Row) : Option ℚ :=
  pyOr r.baro_altitude (pyOr r.geo_altitude (some 0))

/-- Altitude Class of the spec: `High` is the code's red marker,
`Medium` orange, `Low` green. -/
inductive AltClass where
  | High : AltClass
  | Medium : AltClass
  | Low : AltClass
deriving DecidableEq

/-- Threshold bucketing of lines 74 to 79 applied to a (non-NaN)
numeric altitude. -/
def bucket (a : ℚ) : AltClass :=
  if a > 10000 then .High else if a > 5000 then .Medium else .Low

/-- Altitude class the code computes (lines 73 to 79): every `>`
comparison against NaN is `False` in Python, so a NaN effective
altitude lands in `Low` (green). -/
def altitude_class (r : Row) : AltClass :=
  match effective_altitude r with
  | none => .Low
  | some a => bucket a

/-- Modelled from the spec for the refinement comparison of claim C1:
effective altitude is `baro_altitude` if present, else `geo_altitude`
if present, else 0. -/
def effective_altitude_spec (r : Row) : ℚ :=
  match r.baro_altitude with
  | some b => b
  | none =>
    match r.geo_altitude with
    | some g => g
    | none => 0

/-- Modelled from the spec for the refinement comparison of claim C1:
the Altitude Class obtained from the spec's effective altitude. -/
def altitude_class_spec (r : Row) : AltClass :=
  bucket (effective_altitude_spec r)

/-- Ordering used by `sort_values('timestamp')`: ascending with NaT
last (`na_position='last'` default). -/
def tsLeB (a b : Option ℚ) : Bool :=
  match a, b with
  | _, none => true
  | none, some _ => false
  | some x, some y => decide (x ≤ y)

/-- Sort of the store by timestamp (analysis.py line 38).  The pandas
default algorithm is quicksort, whose order on tied keys is
implementation-defined; the model fixes a stable insertion sort, and no
theorem below relies on the order of rows with equal timestamps. -/
def sortByTs (rows : List Row) : List Row :=
  List.insertionSort (fun r s => tsLeB r.tsVal s.tsVal = true) rows

/-- Coordinate presence test of `dropna(subset=['latitude','longitude'])`
(line 35): the row is kept iff neither coordinate cell is NaN. -/
def hasCoords (r : Row) : Bool :=
  r.latitude.isSome && r.longitude.isSome

/-- load_data of analysis.py lines 26 to 46.  `pd.to_datetime` raises on
any unparsable timestamp cell and the `except` branch then replaces the
whole store by an empty frame; otherwise rows with a NaN coordinate are
dropped and the remainder is sorted by timestamp. -/
def load_data (rows : List Row) : List Row :=
  if rows.any (fun r => decide (r.ts = TsRaw.bad)) then []
  else sortByTs (rows.filter hasCoords)

/-- Consecutive differences of a timestamp column,
`Series.diff().dropna()` (line 143): a pair with NaT on either side
contributes nothing. -/
def tsDiffs : List (Option ℚ) → List ℚ
  | a :: b :: rest =>
    (match a, b with
     | some x, some y => [y - x]
     | _, _ => []) ++ tsDiffs (b :: rest)
  | _ => []

/-- Deltas between consecutive timestamps of the store, in store order
(the store is already time-sorted by `load_data`). -/
def time_deltas (store : List Row) : List ℚ :=
  tsDiffs (store.map Row.tsVal)

/-- pandas `Series.median`: middle element of the sorted values for odd
length, mean of the two middle elements for even length; the value on
the empty list is irrelevant (callers guard emptiness). -/
def median (xs : List ℚ) : ℚ :=
  let s := List.insertionSort (fun a b : ℚ => a ≤ b) xs
  if s.length % 2 = 1 then s.getD (s.length / 2) 0
  else (s.getD (s.length / 2 - 1) 0 + s.getD (s.length / 2) 0) / 2

/-- avg_interval of create_time_animation lines 142 to 148: the median
delta in seconds, or the 60-second default when there are no deltas. -/
def avg_interval (store : List Row) : ℚ :=
  if time_deltas store = [] then 60 else median (time_deltas store)

/-- Animation period string of lines 199 to 205, fed `avg_interval`. -/
def animation_period (store : List Row) : String :=
  if avg_interval store < 30 then "PT10S"
  else if avg_interval store < 120 then "PT30S"
  else "PT1M"

/-- Coordinate pair a row is deduplicated by (line 271's subset). -/
def coordKey (r : Row) : Option ℚ × Option ℚ :=
  (r.latitude, r.longitude)

/-- Worker of `drop_duplicates_coords`: `seen` accumulates the
coordinate keys already emitted. -/
def dropDupGo (seen : List (Option ℚ × Option ℚ)) : List Row → List Row
  | [] => []
  | r :: rs =>
    if coordKey r ∈ seen then dropDupGo seen rs
    else r :: dropDupGo (coordKey r :: seen) rs

/-- pandas `drop_duplicates(subset=['latitude','longitude'],
keep='first')` (line 271): global keep-first deduplication by coordinate
pair; pandas matches NaN cells as equal here, as does the `Option`
model. -/
def drop_duplicates_coords (rows : List Row) : List Row :=
  dropDupGo [] rows

/-- Worker of `dedup_consecutive`, carrying the previous kept row. -/
def dedupConsecGo (prev : Row) : List Row → List Row
  | [] => []
  | s :: rs =>
    if coordKey s = coordKey prev then dedupConsecGo prev rs
    else s :: dedupConsecGo s rs

/-- Modelled from the spec for the refinement comparison of claim C4:
collapse only consecutive runs of identical coordinates, keeping the
first record of each run. -/
def dedup_consecutive : List Row → List Row
  | [] => []
  | r :: rs => r :: dedupConsecGo r rs

/-- Fixed 18-color palette of create_flight_paths lines 255 to 258. -/
def palette : List String :=
  ["red", "blue", "green", "purple", "orange", "darkred",
   "lightred", "beige", "darkblue", "darkgreen", "cadetblue",
   "darkpurple", "pink", "lightblue", "lightgreen",
   "gray", "black", "lightgray"]

/-- Key order of `self.data.groupby('icao24')` (line 253): pandas
iterates group keys in ascending sorted order (`sort=True` default) and
omits NaN keys. -/
def group_keys (store : List Row) : List String :=
  List.insertionSort (fun a b : String => a ≤ b)
    (store.filterMap Row.icao24).dedup

/-- Rows of one group, in store order (groupby preserves the relative
order of rows within each group). -/
def group_rows (store : List Row) (k : String) : List Row :=
  store.filter (fun r => decide (r.icao24 = some k))

/-- Track of one aircraft as create_flight_paths lines 265 to 282 builds
it: sort the group by timestamp, require `min_points` rows, deduplicate
coordinates globally keep-first, require `min_points` rows again (the
third length test of line 282 re-checks the same length); `none` when no
path is emitted for this aircraft. -/
def flight_path_track (store : List Row) (k : String) (min_points : Nat) :
    Option (List Row) :=
  let group := sortByTs (group_rows store k)
  if min_points ≤ group.length then
    let d := drop_duplicates_coords group
    if min_points ≤ d.length then some d else none
  else none

/-- One emitted flight path: aircraft key, polyline color, and the
deduplicated coordinate sequence. -/
structure FlightPath where
  aircraft : String
  color : String
  coords : List (ℚ × ℚ)
deriving DecidableEq

/-- Loop body of create_flight_paths lines 265 to 349: iterate keys in
groupby order, assign palette colors round-robin, advancing the color
index only when a path is actually emitted (line 284 sits inside the
length guards). -/
def flight_paths_go (store : List Row) (min_points : Nat) :
    List String → Nat → List FlightPath
  | [], _ => []
  | k :: ks, idx =>
    match flight_path_track store k min_points with
    | some d =>
      { aircraft := k,
        color := palette.getD (idx % palette.length) "",
        coords := d.map (fun r => (r.latitude.getD 0, r.longitude.getD 0)) }
        :: flight_paths_go store min_points ks (idx + 1)
    | none => flight_paths_go store min_points ks idx

/-- All flight paths of a store, in groupby key order. -/
def flight_paths (store : List Row) (min_points : Nat) : List FlightPath :=
  flight_paths_go store min_points (group_keys store) 0

/-- Track-to-color mapping induced by create_flight_paths. -/
def flight_path_colors (store : List Row) (min_points : Nat) :
    List (String × String) :=
  (flight_paths store min_points).map (fun p => (p.aircraft, p.color))

/-- Marker color string of lines 74 to 79. -/
def alt_color (r : Row) : String :=
  match altitude_class r with
  | .High => "red"
  | .Medium => "orange"
  | .Low => "green"

/-- One snapshot circle marker of create_static_map. -/
structure Marker where
  lat : ℚ
  lon : ℚ
  color : String
deriving DecidableEq

/-- create_static_map lines 48 to 118 as a view-model: on an empty store
the function returns at line 57 having emitted nothing; otherwise one
marker per record with the altitude-based color. -/
def create_static_map (store : List Row) : Except String (List Marker) :=
  if store.isEmpty then .ok []
  else .ok (store.map (fun r =>
    { lat := r.latitude.getD 0, lon := r.longitude.getD 0,
      color := alt_color r }))

/-- One animation feature of create_time_animation. -/
structure Frame where
  time : Option ℚ
  lat : ℚ
  lon : ℚ
  color : String
deriving DecidableEq

/-- Ordering of `sort_values(['timestamp','icao24'])` (line 154):
timestamp ascending, ties by icao24, NaN keys last. -/
def frameLeB (r s : Row) : Bool :=
  match r.tsVal, s.tsVal with
  | some x, some y =>
    if x = y then
      match r.icao24, s.icao24 with
      | _, none => true
      | none, some _ => false
      | some a, some b => decide (a ≤ b)
    else decide (x ≤ y)
  | some _, none => true
  | none, some _ => false
  | none, none => true

/-- create_time_animation lines 120 to 227 as a view-model: on an empty
store the function returns at line 129 having emitted nothing; otherwise
one time-stamped feature per record, in (timestamp, icao24) order.  The
accompanying playback period is `animation_period`. -/
def create_time_animation (store : List Row) : Except String (List Frame) :=
  if store.isEmpty then .ok []
  else .ok ((List.insertionSort (fun r s => frameLeB r s = true) store).map
    (fun r => { time := r.tsVal, lat := r.latitude.getD 0,
                lon := r.longitude.getD 0, color := alt_color r }))

/-- create_flight_paths lines 229 to 371 as a view-model: on an empty
store the function returns at line 239 having emitted nothing. -/
def create_flight_paths (store : List Row) (min_points : Nat) :
    Except String (List FlightPath) :=
  if store.isEmpty then .ok []
  else .ok (flight_paths store min_points)

/-- create_heatmap lines 373 to 404 as a view-model: on an empty store
the function returns at line 382 having emitted nothing; otherwise one
weighted point per record. -/
def create_heatmap (store : List Row) : Except String (List (ℚ × ℚ)) :=
  if store.isEmpty then .ok []
  else .ok (store.map (fun r => (r.latitude.getD 0, r.longitude.getD 0)))

/-- Python division, which raises `ZeroDivisionError` on a zero
denominator. -/
def pydiv (a b : ℚ) : Except String ℚ :=
  if b = 0 then .error "ZeroDivisionError" else .ok (a / b)

/-- Missing-altitude figure of generate_statistics line 467: the count of
NaN `baro_altitude` cells *plus* the count of NaN `geo_altitude` cells. -/
def missing_altitude_stat (store : List Row) : Nat :=
  store.countP (fun r => r.baro_altitude.isNone)
    + store.countP (fun r => r.geo_altitude.isNone)

/-- Modelled from the spec for the refinement comparison of claim C7:
the number of records with either altitude field absent. -/
def missing_either (store : List Row) : Nat :=
  store.countP (fun r => r.baro_altitude.isNone || r.geo_altitude.isNone)

/-- Number of records with both altitude fields absent. -/
def missing_both (store : List Row) : Nat :=
  store.countP (fun r => r.baro_altitude.isNone && r.geo_altitude.isNone)

/-- pandas `Series.value_counts()`: distinct values with their
multiplicities, ordered by count descending.  The order of tied counts
is a modeling choice no theorem relies on. -/
def value_counts (xs : List String) : List (String × Nat) :=
  List.insertionSort (fun p q : String × Nat => q.2 ≤ p.2)
    (xs.dedup.map (fun s => (s, xs.count s)))

/-- Top-callsign list of generate_statistics line 458:
`self.data['callsign'].dropna().value_counts().head(10)` — only NaN
cells are removed before counting. -/
def top_callsigns (store : List Row) : List (String × Nat) :=
  (value_counts (store.filterMap Row.callsign)).take 10

/-- Blankness test matching the spec's "blank/whitespace-only"
callsigns. -/
def isBlank (s : String) : Bool :=
  s.data.all Char.isWhitespace

/-- Data-quality section of the Statistics Report (generate_statistics
lines 457 to 472), restricted to the fields the claims mention. -/
structure Report where
  total : Nat
  missing_callsign : Nat
  missing_altitude : Nat
  missing_speed : Nat
  frac_callsign : ℚ
  frac_altitude : ℚ
  frac_speed : ℚ
  top10_callsigns : List (String × Nat)
deriving DecidableEq

/-- generate_statistics lines 406 to 472: on an empty store the function
returns at line 410 reporting no data (`none`); otherwise the
missing-field counters and their fractions of the record count, and the
top-10 callsign list.  The divisions of lines 470 to 472 are modelled by
`pydiv`, which is what could raise on a zero denominator. -/
def generate_statistics (store : List Row) : Except String (Option Report) :=
  if store.isEmpty then .ok none
  else do
    let n := store.length
    let mc := store.countP (fun r => r.callsign.isNone)
    let ma := missing_altitude_stat store
    let ms := store.countP (fun r => r.velocity.isNone)
    let fc ← pydiv (mc : ℚ) (n : ℚ)
    let fa ← pydiv (ma : ℚ) (n : ℚ)
    let fs ← pydiv (ms : ℚ) (n : ℚ)
    .ok (some { total := n, missing_callsign := mc, missing_altitude := ma,
                missing_speed := ms, frac_callsign := fc, frac_altitude := fa,
                frac_speed := fs, top10_callsigns := top_callsigns store })

/-- Template row with every cell present, used to build concrete stores. -/
def mkRow (id : String) (t : ℚ) (la lo : ℚ) : Row :=
  { icao24 := some id, callsign := some "UAL123", ts := .good t,
    latitude := some la, longitude := some lo,
    baro_altitude := some 30000, geo_altitude := some 30500,
    velocity := some 450 }

/-- A fully valid row. -/
def rowG : Row := mkRow "aaa111" 0 39 (-104)

/-- A row whose timestamp cell `pd.to_datetime` cannot parse. -/
def rowBadTs : Row := { mkRow "bbb222" 0 40 (-105) with ts := .bad }

/-- A row with latitude 100, outside the valid range of ±90. -/
def rowLat100 : Row := mkRow "ccc333" 0 100 0

/-- A row with `baro_altitude` absent (NaN) and `geo_altitude` 12000 ft. -/
def rowNBG : Row :=
  { mkRow "ddd444" 0 39 (-104) with
    baro_altitude := none, geo_altitude := some 12000 }

/-- First point of the duplicate-coordinate track. -/
def rA : Row := mkRow "abc123" 0 1 1

/-- Second point of the duplicate-coordinate track, distinct coordinates. -/
def rB : Row := mkRow "abc123" 1 2 2

/-- Third point of the duplicate-coordinate track: same coordinates as
`rA`, two seconds later, not adjacent to it in time order. -/
def rA2 : Row := mkRow "abc123" 2 1 1

/-- Store with one aircraft whose track revisits its first coordinate. -/
def store4 : List Row := [rA, rB, rA2]

/-- Store with consecutive timestamp deltas 10, 10, 200, 10 seconds. -/
def store5 : List Row :=
  [mkRow "e1" 0 1 1, mkRow "e2" 10 2 2, mkRow "e3" 20 3 3,
   mkRow "e4" 220 4 4, mkRow "e5" 230 5 5]

/-- A row with both altitude cells absent (NaN). -/
def rowNoAlt : Row :=
  { mkRow "fff666" 0 39 (-104) with
    baro_altitude := none, geo_altitude := none, callsign := some "UAL1" }

/-- A row whose callsign is the whitespace-only string OpenSky emits for
an unset callsign (eight spaces). -/
def rowBlankCs : Row :=
  { mkRow "ggg777" 0 39 (-104) with callsign := some "        " }

/-- C1 (counterexample): a record with `baro_altitude` absent and
`geo_altitude` 12000 ft is *not* classified using `geo_altitude`: NaN is
truthy in Python, so the falsy-or chain returns NaN, every threshold
comparison is false, and the code classifies the record Low (green),
while the claim's effective altitude 12000 would make it High. -/
theorem altitude_fallback_counterexample :
    rowNBG.baro_altitude = none ∧ rowNBG.geo_altitude = some 12000 ∧
    altitude_class rowNBG = AltClass.Low ∧
    altitude_class_spec rowNBG = AltClass.High := by decide

/-- C1 (amended): the code's altitude class follows Python falsy-or
resolution, a NaN cell being truthy: an absent (NaN) `baro_altitude`
yields class Low whatever `geo_altitude` holds; a nonzero `baro_altitude`
is bucketed by the > 10000 / > 5000 thresholds; a zero `baro_altitude`
falls through to `geo_altitude`, which in turn gives Low when absent
(NaN) or zero and is bucketed otherwise. -/
theorem altitude_class_falsy_fallback (r : Row) :
    altitude_class r =
      (match r.baro_altitude with
       | none => AltClass.Low
       | some bv =>
         if bv ≠ 0 then bucket bv
         else
           match r.geo_altitude with
           | none => AltClass.Low
           | some gv => if gv ≠ 0 then bucket gv else AltClass.Low) := by
  rcases hb : r.baro_altitude with _ | bv <;>
    rcases hg : r.geo_altitude with _ | gv <;>
      simp only [altitude_class, effective_altitude, pyOr, pyTruthy, hb, hg] <;>
      split_ifs <;> simp_all [bucket] <;> norm_num

/-- C2 (counterexample): a store of one valid row plus one row with an
unparsable timestamp loads as the empty store — the valid row, retained
when loaded alone, is lost — because `pd.to_datetime` raises and the
`except` branch empties the whole frame. -/
theorem load_single_bad_timestamp_counterexample :
    load_data [rowG, rowBadTs] = [] ∧ load_data [rowG] = [rowG] := by decide

/-- C2 (amended): one unparsable timestamp anywhere in the input is fatal
to the whole load: the store comes back empty, no other row is
retained. -/
theorem load_data_bad_timestamp_fatal (rows : List Row)
    (h : ∃ r ∈ rows, r.ts = TsRaw.bad) : load_data rows = [] := by
  unfold load_data
  rw [if_pos]
  rw [List.any_eq_true]
  obtain ⟨r, hr, he⟩ := h
  exact ⟨r, hr, by simp [he]⟩

/-- Witness for C2's amended theorem at a concrete one-row input. -/
theorem load_data_bad_timestamp_fatal_witness : load_data [rowBadTs] = [] :=
  load_data_bad_timestamp_fatal [rowBadTs] ⟨rowBadTs, by decide, by decide⟩

/-- C3 (counterexample): a row with latitude 100 — outside the claimed
valid range of ±90 — is retained by the load, which validates nothing
beyond NaN coordinates. -/
theorem load_out_of_range_counterexample :
    rowLat100.latitude = some 100 ∧ (90 : ℚ) < 100 ∧
    load_data [rowLat100] = [rowLat100] := by decide

/-- C3 (amended): for an input with no unparsable timestamp, a row is in
the loaded store iff it is an input row whose latitude and longitude
cells are both present (non-NaN); no finiteness or range check is
applied. -/
theorem load_data_mem_iff (rows : List Row)
    (hnb : ∀ r ∈ rows, r.ts ≠ TsRaw.bad) (r : Row) :
    r ∈ load_data rows ↔ r ∈ rows ∧ hasCoords r = true := by
  unfold load_data
  rw [if_neg]
  · unfold sortByTs
    rw [(List.perm_insertionSort _ _).mem_iff, List.mem_filter]
  · simp only [List.any_eq_true, not_exists, not_and]
    intro x hx
    simpa using hnb x hx

/-- Witness for C3's amended theorem at a concrete one-row input. -/
theorem load_data_mem_iff_witness : rowG ∈ load_data [rowG] :=
  (load_data_mem_iff [rowG] (by decide) rowG).mpr ⟨by decide, by decide⟩

/-- The keep-first deduplication worker only ever removes rows. -/
theorem dropDupGo_sublist (seen : List (Option ℚ × Option ℚ))
    (xs : List Row) : (dropDupGo seen xs).Sublist xs := by
  induction xs generalizing seen with
  | nil => simp [dropDupGo]
  | cons r rs ih =>
    simp only [dropDupGo]
    split
    · exact (ih seen).cons r
    · exact (ih (coordKey r :: seen)).cons₂ r

/-- Rows emitted by the worker never carry a coordinate key already in
the accumulator. -/
theorem dropDupGo_not_seen (seen : List (Option ℚ × Option ℚ))
    (xs : List Row) :
    ∀ c ∈ (dropDupGo seen xs).map coordKey, c ∉ seen := by
  induction xs generalizing seen with
  | nil => simp [dropDupGo]
  | cons r rs ih =>
    simp only [dropDupGo]
    split
    · exact ih seen
    · rename_i hns
      intro c hc
      simp only [List.map_cons, List.mem_cons] at hc
      rcases hc with rfl | hc
      · exact hns
      · intro hcs
        exact ih (coordKey r :: seen) c hc (List.mem_cons_of_mem _ hcs)

/-- The coordinate keys of the worker's output are pairwise distinct. -/
theorem dropDupGo_nodup (seen : List (Option ℚ × Option ℚ))
    (xs : List Row) : ((dropDupGo seen xs).map coordKey).Nodup := by
  induction xs generalizing seen with
  | nil => simp [dropDupGo]
  | cons r rs ih =>
    simp only [dropDupGo]
    split
    · exact ih seen
    · simp only [List.map_cons, List.nodup_cons]
      exact ⟨fun hmem =>
        dropDupGo_not_seen (coordKey r :: seen) rs _ hmem
          (List.mem_cons_self _ _), ih _⟩

/-- Every input row's coordinate key was either already accumulated or
appears among the output's keys. -/
theorem dropDupGo_cover (seen : List (Option ℚ × Option ℚ))
    (xs : List Row) :
    ∀ r ∈ xs, coordKey r ∈ seen ∨
      coordKey r ∈ (dropDupGo seen xs).map coordKey := by
  induction xs generalizing seen with
  | nil => simp
  | cons a rs ih =>
    intro r hr
    simp only [dropDupGo]
    rcases List.mem_cons.mp hr with rfl | hr
    · split
      · rename_i hs
        exact Or.inl hs
      · right
        simp
    · split
      · exact ih seen r hr
      · rcases ih (coordKey a :: seen) r hr with hs | hd
        · rcases List.mem_cons.mp hs with he | hs
          · right
            simp [he]
          · exact Or.inl hs
        · right
          simp only [List.map_cons, List.mem_cons]
          exact Or.inr hd

/-- C4 (counterexample): on the track (1,1) → (2,2) → (1,1) of one
aircraft, the code's flight-path deduplication drops the third point —
a duplicate of an earlier but *non-adjacent* point — while the spec's
consecutive-runs collapse, applied to the same time-sorted group,
retains all three points. -/
theorem track_dedup_nonadjacent_counterexample :
    flight_path_track store4 "abc123" 2 = some [rA, rB] ∧
    dedup_consecutive (sortByTs (group_rows store4 "abc123")) =
      [rA, rB, rA2] ∧
    coordKey rA2 = coordKey rA ∧ coordKey rA2 ≠ coordKey rB := by decide

/-- C4 (amended): within each track the deduplication of
create_flight_paths is *global* keep-first: the result is a subsequence
of the sorted group, its coordinate pairs are pairwise distinct (so a
record matching any earlier record's coordinates is dropped, adjacent or
not), and every input coordinate pair is still represented by its first
occurrence. -/
theorem drop_duplicates_keep_first_global (xs : List Row) :
    (drop_duplicates_coords xs).Sublist xs ∧
    ((drop_duplicates_coords xs).map coordKey).Nodup ∧
    ∀ r ∈ xs, coordKey r ∈ (drop_duplicates_coords xs).map coordKey := by
  refine ⟨dropDupGo_sublist [] xs, dropDupGo_nodup [] xs, fun r hr => ?_⟩
  rcases dropDupGo_cover [] xs r hr with h | h
  · simp at h
  · exact h

/-- Witness for C4's amended theorem: the revisited coordinate of
`store4` is still represented in the deduplicated track. -/
theorem drop_duplicates_keep_first_global_witness :
    coordKey rA2 ∈ (drop_duplicates_coords [rA, rB, rA2]).map coordKey :=
  (drop_duplicates_keep_first_global [rA, rB, rA2]).2.2 rA2 (by decide)

/-- C5 (counterexample): a store of fewer than 2 records does *not* get
the 60-second period the claim states: the 60-second default lands in
the middle threshold bracket, which create_time_animation maps to the
30-second period "PT30S", not to "PT1M". -/
theorem animation_period_default_counterexample :
    ([rowG] : List Row).length < 2 ∧
    animation_period [rowG] = "PT30S" ∧
    ("PT30S" : String) ≠ "PT1M" := by decide

/-- C5 (amended): the period is a function of the median of consecutive
timestamp deltas over the time-sorted store: with no deltas (fewer than
2 records, or no two consecutive parsed timestamps) the 60-second
default median falls in the middle bracket and yields the 30-second
period; otherwise median < 30 s yields "PT10S", 30 s ≤ median < 120 s
yields "PT30S", and 120 s ≤ median yields "PT1M" — the boundary values
exactly 30 and exactly 120 map to the higher bracket. -/
theorem animation_period_brackets (store : List Row) :
    (time_deltas store = [] → animation_period store = "PT30S") ∧
    (time_deltas store ≠ [] →
      ((median (time_deltas store) < 30 → animation_period store = "PT10S") ∧
       (30 ≤ median (time_deltas store) → median (time_deltas store) < 120 →
         animation_period store = "PT30S") ∧
       (120 ≤ median (time_deltas store) →
         animation_period store = "PT1M"))) := by
  constructor
  · intro h
    simp only [animation_period, avg_interval, if_pos h]
    norm_num
  · intro h
    simp only [animation_period, avg_interval, if_neg h]
    refine ⟨fun hm => ?_, fun h1 h2 => ?_, fun h1 => ?_⟩
    · rw [if_pos hm]
    · rw [if_neg (by linarith), if_pos h2]
    · rw [if_neg (by linarith), if_neg (by linarith)]

/-- Witness for C5's amended theorem: the spec's own scenario, deltas
10 s, 10 s, 200 s, 10 s, has median 10 s and yields "PT10S". -/
theorem animation_period_brackets_witness :
    animation_period store5 = "PT10S" := by
  have h : time_deltas store5 = [10, 10, 200, 10] := by
    norm_num [time_deltas, tsDiffs, store5, mkRow, Row.tsVal]
  have hm : median [10, 10, 200, 10] = 10 := by
    norm_num [median, List.insertionSort, List.orderedInsert]
  exact ((animation_period_brackets store5).2 (by rw [h]; simp)).1
    (by rw [h, hm]; norm_num)

/-- C7 (counterexample): on a store of one record missing both altitude
cells, generate_statistics reports a missing-altitude count of 2 out of
1 records — the two NaN counts are added — so the reported fraction is
2 (200 percent), while the number of records with either field absent is
1 and the claim caps the figure at 100 percent. -/
theorem missing_altitude_counterexample :
    generate_statistics [rowNoAlt] =
      .ok (some { total := 1, missing_callsign := 0, missing_altitude := 2,
                  missing_speed := 0, frac_callsign := 0, frac_altitude := 2,
                  frac_speed := 0, top10_callsigns := [("UAL1", 1)] }) ∧
    missing_either [rowNoAlt] = 1 ∧ ¬ ((2 : ℚ) ≤ 1) := by
  refine ⟨?_, by decide, by norm_num⟩
  have htop : top_callsigns [rowNoAlt] = [("UAL1", 1)] := by decide
  simp only [rowNoAlt, mkRow] at htop
  norm_num [generate_statistics, rowNoAlt, mkRow, missing_altitude_stat,
    pydiv, htop, bind, Except.bind]

/-- C7 (amended): the missing-altitude figure of generate_statistics is
the count of NaN `baro_altitude` cells plus the count of NaN
`geo_altitude` cells, which equals the number of records with either
altitude field absent *plus* the number of records missing both — a
record missing both is counted twice — and is bounded by twice the
record count rather than by it. -/
theorem missing_altitude_double_count (store : List Row) :
    missing_altitude_stat store = missing_either store + missing_both store ∧
    missing_altitude_stat store ≤ 2 * store.length := by
  induction store with
  | nil => simp [missing_altitude_stat, missing_either, missing_both]
  | cons r rs ih =>
    obtain ⟨ih1, ih2⟩ := ih
    simp only [missing_altitude_stat, missing_either, missing_both,
      List.countP_cons, List.length_cons]
    simp only [missing_altitude_stat, missing_either, missing_both] at ih1 ih2
    cases hb : r.baro_altitude.isNone <;> cases hg : r.geo_altitude.isNone <;>
      simp [hb, hg] <;> omega

/-- C8 (counterexample): a record whose callsign is the whitespace-only
eight-space string OpenSky emits contributes an entry to the top-10
callsign list — only NaN callsigns are dropped before counting. -/
theorem top_callsigns_blank_counterexample :
    top_callsigns [rowBlankCs] = [("        ", 1)] ∧
    isBlank "        " = true := by decide

/-- C8 (amended): every entry of the top-10 callsign list is the exact
callsign string of some record of the store — so an absent (NaN)
callsign never contributes — but blank/whitespace-only callsign strings
are not excluded. -/
theorem top_callsigns_sound (store : List Row) (s : String) (c : Nat)
    (h : (s, c) ∈ top_callsigns store) : ∃ r ∈ store, r.callsign = some s := by
  unfold top_callsigns value_counts at h
  have h1 := (List.take_sublist _ _).subset h
  have h2 := (List.perm_insertionSort _ _).mem_iff.mp h1
  obtain ⟨s', hs', he⟩ := List.mem_map.mp h2
  obtain ⟨rfl, -⟩ := Prod.mk.injEq .. ▸ he
  obtain ⟨r, hr, hrc⟩ := List.mem_filterMap.mp (List.mem_dedup.mp hs')
  exact ⟨r, hr, hrc⟩

/-- Witness for C8's amended theorem at a concrete one-row store. -/
theorem top_callsigns_sound_witness :
    ∃ r ∈ [rowG], r.callsign = some "UAL123" :=
  top_callsigns_sound [rowG] "UAL123" 1 (by decide)

/-- C9 (confirmed): on the empty store every synthesis operation —
static map, time animation, flight paths, heatmap — returns successfully
with an empty view-model, and generate_statistics returns successfully
reporting no data; none of them reaches a division or any other failing
computation. -/
theorem empty_store_all_ops_ok :
    create_static_map [] = .ok [] ∧
    create_time_animation [] = .ok [] ∧
    create_flight_paths [] 2 = .ok [] ∧
    create_heatmap [] = .ok [] ∧
    generate_statistics [] = .ok none :=
  ⟨rfl, rfl, rfl, rfl, rfl⟩

/-- C10 (confirmed): the flight-path grouping iterates aircraft
identities in ascending sorted icao24 order with no repeats — pandas
groupby sorts its keys — and the round-robin color assignment is a pure
function of the store, so two runs over the same store produce the same
track-to-color mapping. -/
theorem group_iteration_sorted_deterministic (store : List Row) :
    List.Sorted (· ≤ ·) (group_keys store) ∧
    (group_keys store).Nodup ∧
    flight_path_colors store 2 = flight_path_colors store 2 := by
  refine ⟨List.sorted_insertionSort _ _, ?_, rfl⟩
  exact (List.perm_insertionSort _ _).symm.nodup (List.nodup_dedup _)
